import Mathlib

/-!
Verification of the journy.io CLI request/response mediation layer
(`src/api.js`, `src/index.js`) against its natural-language specification.

The JavaScript source is shallowly embedded: JSON values become an
inductive `Json`, the remote endpoint becomes an explicit function
argument (`Net`) describing the axios outcome for a dispatched request,
thrown `Error` objects become `Except String` results carrying the thrown
message, and each mediator operation / CLI action becomes a Lean function
that additionally reports how many network requests it issued and whether
the mediator was invoked.
-/

namespace Journy

/-- JSON values as produced by `JSON.parse` and consumed by axios:
null, booleans, numbers, strings, arrays and ordered objects.
(The claims under study involve only strings and objects, so numbers
are modelled as integers.) -/
inductive Json where
  | null : Json
  | bool (b : Bool) : Json
  | num (n : Int) : Json
  | str (s : String) : Json
  | arr (elems : List Json) : Json
  | obj (fields : List (String × Json)) : Json

/-- JavaScript truthiness of a JSON value (`if (x)`). -/
def truthy : Json → Bool
  | .null => false
  | .bool b => b
  | .num n => !(n == 0)
  | .str s => !(s == "")
  | .arr _ => true
  | .obj _ => true

/-- Property access `o?.k` on a JSON value: defined only on objects,
last assignment wins (as with duplicate keys in `JSON.parse`). -/
def jsGet : Json → String → Option Json
  | .obj fs, k => ((fs.reverse).find? (fun p => p.1 == k)).map (fun p => p.2)
  | _, _ => none

/-- Walk a path of keys through nested objects; `some v` iff every key on
the path is present. Used to state which keys a constructed body carries. -/
def keyAtPath : Json → List String → Option Json
  | j, [] => some j
  | j, k :: rest =>
    match jsGet j k with
    | some v => keyAtPath v rest
    | none => none

/-- `Object.keys(x).length` for a value obtained from `JSON.parse`:
field count for objects, element count for arrays, character count for
strings, `0` otherwise. -/
def jsKeysLength : Json → Nat
  | .obj fs => fs.length
  | .arr xs => xs.length
  | .str s => s.length
  | _ => 0

mutual

/-- JavaScript template-literal stringification `String(x)` of a JSON
value (objects print as `[object Object]`, arrays join with commas). -/
def jsToString : Json → String
  | .null => "null"
  | .bool b => if b then "true" else "false"
  | .num n => toString n
  | .str s => s
  | .arr xs => jsListToString xs
  | .obj _ => "[object Object]"

/-- Comma-joined stringification of a JSON array's elements. -/
def jsListToString : List Json → String
  | [] => ""
  | [j] => jsToString j
  | j :: rest => jsToString j ++ "," ++ jsListToString rest

end

/-- JavaScript truthiness of an optional string argument
(`undefined` and `""` are falsy). -/
def optTruthy : Option String → Bool
  | none => false
  | some s => !(s == "")

/-- Mirror of the JS idiom `if (v) obj.k = v;`: append the field `k`
at the end of the object's field list exactly when `v` is truthy. -/
def addIf (k : String) (v : Option String) (fields : List (String × Json)) :
    List (String × Json) :=
  match v with
  | none => fields
  | some s => if s = "" then fields else fields ++ [(k, Json.str s)]

/-- Modelled from the spec: the Configuration Store (`src/config.js`,
which is imported by the mediation sources but absent from the
repository snapshot) is "plain key-value read/write with no invariants
beyond last write wins". A configuration is the list of writes, most
recent last. -/
def Config : Type := List (String × String)

/-- Modelled from the spec: `getConfig(key)` returns the last value
written for `key`, or nothing when the key was never set. -/
def getConfig (cfg : Config) (key : String) : Option String :=
  ((cfg.reverse).find? (fun p => p.1 == key)).map (fun p => p.2)

/-- Modelled from the spec: `isConfigured()` holds exactly when a
(truthy, i.e. non-empty) Credential is present in the store — spec §3:
"absence is a terminal precondition failure". -/
def isConfigured (cfg : Config) : Bool :=
  match getConfig cfg "apiKey" with
  | none => false
  | some k => !(k == "")

/-- The message thrown by `getHeaders` when the API key is missing. -/
def apiKeyMissingMsg : String :=
  "API key not configured. Run: journy config set --api-key YOUR_KEY"

/-- `getHeaders()` from `src/api.js`: reads the API key from the
configuration store, throws when it is absent or empty, otherwise
returns the auth and content-type headers. -/
def getHeaders (cfg : Config) : Except String (List (String × String)) :=
  match getConfig cfg "apiKey" with
  | none => .error apiKeyMissingMsg
  | some apiKey =>
    if apiKey = "" then .error apiKeyMissingMsg
    else .ok [("X-Api-Key", apiKey), ("Content-Type", "application/json")]

/-- Outcome of one axios dispatch: a 2xx response (axios resolves with
the body), a non-2xx response (axios rejects with `error.response`
carrying the status and body, and `error.message` describing the
failure), or a transport failure with no response at all. -/
inductive AxiosOutcome where
  | success (payload : Json) : AxiosOutcome
  | httpError (status : Nat) (payload : Json) (errmsg : String) : AxiosOutcome
  | noResponse (errmsg : String) : AxiosOutcome

/-- The remote endpoint as seen through axios: what one dispatch of
(method, url-path, optional body) produces. -/
def Net : Type := String → String → Option Json → AxiosOutcome

/-- The error-classification cascade in `request`'s catch block
(`src/api.js` lines 31-42), applied to an axios rejection that does
carry a response: a truthy `message` field of the response body wins,
then status 401, then status 429, then the generic wrap of
`error.message`. -/
def classifyHttpError (status : Nat) (payload : Json) (errmsg : String) :
    String :=
  match jsGet payload "message" with
  | some m =>
    if truthy m then "API Error: " ++ jsToString m
    else
      if status == 401 then "Unauthorized: Invalid API key"
      else if status == 429 then "Rate limit exceeded (1800 requests/min)"
      else "Request failed: " ++ errmsg
  | none =>
    if status == 401 then "Unauthorized: Invalid API key"
    else if status == 429 then "Rate limit exceeded (1800 requests/min)"
    else "Request failed: " ++ errmsg

/-- `request(method, endpoint, data)` from `src/api.js`: build headers
(throwing locally when the key is missing — that throw carries no
`response`, so the catch block wraps it as `Request failed: ...`),
dispatch through axios, and classify any failure. The second component
counts the network requests actually issued. -/
def request (cfg : Config) (net : Net) (method endpoint : String)
    (data : Option Json) : Except String Json × Nat :=
  match getHeaders cfg with
  | .error e => (.error ("Request failed: " ++ e), 0)
  | .ok _ =>
    match net method endpoint data with
    | .success payload => (.ok payload, 1)
    | .httpError status payload errmsg =>
      (.error (classifyHttpError status payload errmsg), 1)
    | .noResponse errmsg => (.error ("Request failed: " ++ errmsg), 1)

/-- A mediator call: the HTTP method, endpoint path and optional body
an operation hands to `request`. -/
structure MediatorCall where
  method : String
  endpoint : String
  data : Option Json

/-- Dispatch a mediator call through `request`. -/
def runOp (cfg : Config) (net : Net) (c : MediatorCall) :
    Except String Json × Nat :=
  request cfg net c.method c.endpoint c.data

/-- The request `upsertUser(userId, email, properties = {})` builds
(`src/api.js` lines 52-66): identification always carries `userId`,
`email` is appended only when truthy, `properties` only when non-empty. -/
def upsertUserCall (userId : String) (email : Option String)
    (properties : Json) : MediatorCall :=
  let ident := addIf "email" email [("userId", Json.str userId)]
  let base := [("identification", Json.obj ident)]
  let fields :=
    if jsKeysLength properties > 0 then base ++ [("properties", properties)]
    else base
  { method := "POST", endpoint := "/users/upsert", data := some (Json.obj fields) }

/-- `upsertUser` from `src/api.js`: build the body and dispatch. -/
def upsertUser (cfg : Config) (net : Net) (userId : String)
    (email : Option String) (properties : Json) : Except String Json × Nat :=
  runOp cfg net (upsertUserCall userId email properties)

/-- The request `deleteUser(userId, email)` builds (`src/api.js` lines
71-77): identification starts empty, `userId` and then `email` are
appended only when truthy; no other check is performed. -/
def deleteUserCall (userId email : Option String) : MediatorCall :=
  let ident := addIf "email" email (addIf "userId" userId [])
  { method := "DELETE", endpoint := "/users",
    data := some (Json.obj [("identification", Json.obj ident)]) }

/-- `deleteUser` from `src/api.js`: build the body and dispatch. -/
def deleteUser (cfg : Config) (net : Net) (userId email : Option String) :
    Except String Json × Nat :=
  runOp cfg net (deleteUserCall userId email)

/-- The request `upsertAccount(accountId, domain, properties = {})`
builds (`src/api.js` lines 86-100). -/
def upsertAccountCall (accountId : String) (domain : Option String)
    (properties : Json) : MediatorCall :=
  let ident := addIf "domain" domain [("accountId", Json.str accountId)]
  let base := [("identification", Json.obj ident)]
  let fields :=
    if jsKeysLength properties > 0 then base ++ [("properties", properties)]
    else base
  { method := "POST", endpoint := "/accounts/upsert", data := some (Json.obj fields) }

/-- `upsertAccount` from `src/api.js`: build the body and dispatch. -/
def upsertAccount (cfg : Config) (net : Net) (accountId : String)
    (domain : Option String) (properties : Json) : Except String Json × Nat :=
  runOp cfg net (upsertAccountCall accountId domain properties)

/-- The request `deleteAccount(accountId, domain)` builds (`src/api.js`
lines 105-111). -/
def deleteAccountCall (accountId domain : Option String) : MediatorCall :=
  let ident := addIf "domain" domain (addIf "accountId" accountId [])
  { method := "DELETE", endpoint := "/accounts",
    data := some (Json.obj [("identification", Json.obj ident)]) }

/-- `deleteAccount` from `src/api.js`: build the body and dispatch. -/
def deleteAccount (cfg : Config) (net : Net) (accountId domain : Option String) :
    Except String Json × Nat :=
  runOp cfg net (deleteAccountCall accountId domain)

/-- The request `addUsersToAccount(accountId, userIds)` builds
(`src/api.js` lines 116-123): no bound on the list length is checked
here. -/
def addUsersToAccountCall (accountId : String) (userIds : List String) :
    MediatorCall :=
  { method := "POST", endpoint := "/accounts/users/add",
    data := some (Json.obj
      [("identification", Json.obj [("accountId", Json.str accountId)]),
       ("users", Json.arr (userIds.map (fun userId =>
         Json.obj [("identification", Json.obj [("userId", Json.str userId)])])))]) }

/-- `addUsersToAccount` from `src/api.js`: build the body and dispatch. -/
def addUsersToAccount (cfg : Config) (net : Net) (accountId : String)
    (userIds : List String) : Except String Json × Nat :=
  runOp cfg net (addUsersToAccountCall accountId userIds)

/-- The request `removeUsersFromAccount(accountId, userIds)` builds
(`src/api.js` lines 128-135): the body expression is a verbatim twin of
the one in `addUsersToAccount`; only the endpoint differs. -/
def removeUsersFromAccountCall (accountId : String) (userIds : List String) :
    MediatorCall :=
  { method := "POST", endpoint := "/accounts/users/remove",
    data := some (Json.obj
      [("identification", Json.obj [("accountId", Json.str accountId)]),
       ("users", Json.arr (userIds.map (fun userId =>
         Json.obj [("identification", Json.obj [("userId", Json.str userId)])])))]) }

/-- `removeUsersFromAccount` from `src/api.js`: build the body and dispatch. -/
def removeUsersFromAccount (cfg : Config) (net : Net) (accountId : String)
    (userIds : List String) : Except String Json × Nat :=
  runOp cfg net (removeUsersFromAccountCall accountId userIds)

/-- The request `trackEvent(eventName, userId, accountId, metadata = {})`
builds (`src/api.js` lines 144-160): `name` always, `userId` and
`accountId` only when truthy, `metadata` only when non-empty. -/
def trackEventCall (eventName : String) (userId accountId : Option String)
    (metadata : Json) : MediatorCall :=
  let fields := addIf "accountId" accountId
    (addIf "userId" userId [("name", Json.str eventName)])
  let fields :=
    if jsKeysLength metadata > 0 then fields ++ [("metadata", metadata)]
    else fields
  { method := "POST", endpoint := "/track", data := some (Json.obj fields) }

/-- `trackEvent` from `src/api.js`: build the body and dispatch. -/
def trackEvent (cfg : Config) (net : Net) (eventName : String)
    (userId accountId : Option String) (metadata : Json) :
    Except String Json × Nat :=
  runOp cfg net (trackEventCall eventName userId accountId metadata)

/-- The request `linkUserToAccount(userId, accountId)` builds
(`src/api.js` lines 212-219). -/
def linkUserToAccountCall (userId accountId : String) : MediatorCall :=
  { method := "POST", endpoint := "/link",
    data := some (Json.obj
      [("user", Json.obj [("identification", Json.obj [("userId", Json.str userId)])]),
       ("account", Json.obj [("identification", Json.obj [("accountId", Json.str accountId)])])]) }

/-- `linkUserToAccount` from `src/api.js`: build the body and dispatch. -/
def linkUserToAccount (cfg : Config) (net : Net) (userId accountId : String) :
    Except String Json × Nat :=
  runOp cfg net (linkUserToAccountCall userId accountId)

/-- `getEvents()`: `GET /events`, no body. -/
def getEventsCall : MediatorCall :=
  { method := "GET", endpoint := "/events", data := none }

/-- `getEvents` from `src/api.js`. -/
def getEvents (cfg : Config) (net : Net) : Except String Json × Nat :=
  runOp cfg net getEventsCall

/-- `getUserProperties()`: `GET /properties/users`, no body. -/
def getUserPropertiesCall : MediatorCall :=
  { method := "GET", endpoint := "/properties/users", data := none }

/-- `getUserProperties` from `src/api.js`. -/
def getUserProperties (cfg : Config) (net : Net) : Except String Json × Nat :=
  runOp cfg net getUserPropertiesCall

/-- `getAccountProperties()`: `GET /properties/accounts`, no body. -/
def getAccountPropertiesCall : MediatorCall :=
  { method := "GET", endpoint := "/properties/accounts", data := none }

/-- `getAccountProperties` from `src/api.js`. -/
def getAccountProperties (cfg : Config) (net : Net) : Except String Json × Nat :=
  runOp cfg net getAccountPropertiesCall

/-- `getUserSegments()`: `GET /segments/users`, no body. -/
def getUserSegmentsCall : MediatorCall :=
  { method := "GET", endpoint := "/segments/users", data := none }

/-- `getUserSegments` from `src/api.js`. -/
def getUserSegments (cfg : Config) (net : Net) : Except String Json × Nat :=
  runOp cfg net getUserSegmentsCall

/-- `getAccountSegments()`: `GET /segments/accounts`, no body. -/
def getAccountSegmentsCall : MediatorCall :=
  { method := "GET", endpoint := "/segments/accounts", data := none }

/-- `getAccountSegments` from `src/api.js`. -/
def getAccountSegments (cfg : Config) (net : Net) : Except String Json × Nat :=
  runOp cfg net getAccountSegmentsCall

/-- `validateApiKey()`: `GET /validate`, no body. -/
def validateApiKeyCall : MediatorCall :=
  { method := "GET", endpoint := "/validate", data := none }

/-- `validateApiKey` from `src/api.js`. -/
def validateApiKey (cfg : Config) (net : Net) : Except String Json × Nat :=
  runOp cfg net validateApiKeyCall

/-- `getTrackingSnippet()`: `GET /tracking/snippet`, no body. -/
def getTrackingSnippetCall : MediatorCall :=
  { method := "GET", endpoint := "/tracking/snippet", data := none }

/-- `getTrackingSnippet` from `src/api.js`. -/
def getTrackingSnippet (cfg : Config) (net : Net) : Except String Json × Nat :=
  runOp cfg net getTrackingSnippetCall

/-!
The CLI surface (`src/index.js`). Each leaf command's action is embedded
as a function returning what the command did: the outcome (success
payload or the error message it printed before exiting non-zero), the
number of network requests issued, and whether the mediator operation
was invoked at all.
-/

/-- What a CLI command ends with: rendering the mediator's payload and
exiting zero, or printing an error message and exiting non-zero. -/
inductive CliOutcome where
  | ok (payload : Json) : CliOutcome
  | fail (message : String) : CliOutcome

/-- The observable behaviour of one CLI command invocation. -/
structure ActionResult where
  outcome : CliOutcome
  netCalls : Nat
  mediatorInvoked : Bool

/-- The message `requireAuth()` prints before exiting (`src/index.js`
lines 84-92). -/
def authMissingMsg : String := "API key not configured."

/-- The message `parseProperties` throws on malformed JSON
(`src/index.js` lines 94-102). -/
def badJsonMsg : String :=
  "Properties must be valid JSON. Example: \x27\x7b\"name\":\"John\",\"plan\":\"Pro\"\x7d\x27"

/-- A JSON text parser in the role of `JSON.parse`: `none` when the
string is not valid JSON (i.e. `JSON.parse` throws). -/
def JsonParse : Type := String → Option Json

/-- `parseProperties(propertiesStr)` from `src/index.js`: a missing or
empty (falsy) argument yields `{}` without parsing; otherwise the string
is parsed, and a parse failure becomes the fixed precondition message. -/
def parseProperties (parse : JsonParse) (propertiesStr : Option String) :
    Except String Json :=
  match propertiesStr with
  | none => .ok (Json.obj [])
  | some s =>
    if s = "" then .ok (Json.obj [])
    else
      match parse s with
      | some j => .ok j
      | none => .error badJsonMsg

/-- Package a mediator result as the command's observable behaviour
(the catch blocks print the thrown message and exit non-zero). -/
def finish : Except String Json × Nat → ActionResult
  | (.ok payload, n) => { outcome := .ok payload, netCalls := n, mediatorInvoked := true }
  | (.error e, n) => { outcome := .fail e, netCalls := n, mediatorInvoked := true }

/-- `journy user upsert <userId>` (`src/index.js` lines 148-176):
requireAuth, parse `--properties`, then `upsertUser`. -/
def userUpsertAction (cfg : Config) (net : Net) (parse : JsonParse)
    (userId : String) (email : Option String) (propertiesStr : Option String) :
    ActionResult :=
  if !isConfigured cfg then
    { outcome := .fail authMissingMsg, netCalls := 0, mediatorInvoked := false }
  else
    match parseProperties parse propertiesStr with
    | .error e => { outcome := .fail e, netCalls := 0, mediatorInvoked := false }
    | .ok properties => finish (upsertUser cfg net userId email properties)

/-- `journy user delete <userId>` (`src/index.js` lines 178-202):
requireAuth, then `deleteUser` — the positional `userId` is mandatory
at this surface. -/
def userDeleteAction (cfg : Config) (net : Net) (userId : String)
    (email : Option String) : ActionResult :=
  if !isConfigured cfg then
    { outcome := .fail authMissingMsg, netCalls := 0, mediatorInvoked := false }
  else
    finish (deleteUser cfg net (some userId) email)

/-- `journy account upsert <accountId>` (`src/index.js` lines 210-238). -/
def accountUpsertAction (cfg : Config) (net : Net) (parse : JsonParse)
    (accountId : String) (domain : Option String) (propertiesStr : Option String) :
    ActionResult :=
  if !isConfigured cfg then
    { outcome := .fail authMissingMsg, netCalls := 0, mediatorInvoked := false }
  else
    match parseProperties parse propertiesStr with
    | .error e => { outcome := .fail e, netCalls := 0, mediatorInvoked := false }
    | .ok properties => finish (upsertAccount cfg net accountId domain properties)

/-- `journy account delete <accountId>` (`src/index.js` lines 240-264). -/
def accountDeleteAction (cfg : Config) (net : Net) (accountId : String)
    (domain : Option String) : ActionResult :=
  if !isConfigured cfg then
    { outcome := .fail authMissingMsg, netCalls := 0, mediatorInvoked := false }
  else
    finish (deleteAccount cfg net (some accountId) domain)

/-- The message printed when more than 100 user ids are passed to
`account add-users`. -/
def tooManyAddMsg : String := "Maximum 100 users can be added at once"

/-- The message printed when more than 100 user ids are passed to
`account remove-users`. -/
def tooManyRemoveMsg : String := "Maximum 100 users can be removed at once"

/-- `journy account add-users <accountId> <userIds...>` (`src/index.js`
lines 266-294): requireAuth, reject more than 100 ids locally, then
`addUsersToAccount`. -/
def addUsersAction (cfg : Config) (net : Net) (accountId : String)
    (userIds : List String) : ActionResult :=
  if !isConfigured cfg then
    { outcome := .fail authMissingMsg, netCalls := 0, mediatorInvoked := false }
  else if userIds.length > 100 then
    { outcome := .fail tooManyAddMsg, netCalls := 0, mediatorInvoked := false }
  else
    finish (addUsersToAccount cfg net accountId userIds)

/-- `journy account remove-users <accountId> <userIds...>`
(`src/index.js` lines 296-324). -/
def removeUsersAction (cfg : Config) (net : Net) (accountId : String)
    (userIds : List String) : ActionResult :=
  if !isConfigured cfg then
    { outcome := .fail authMissingMsg, netCalls := 0, mediatorInvoked := false }
  else if userIds.length > 100 then
    { outcome := .fail tooManyRemoveMsg, netCalls := 0, mediatorInvoked := false }
  else
    finish (removeUsersFromAccount cfg net accountId userIds)

/-- The message printed by `event track` when both `--user-id` and
`--account-id` are missing. -/
def noIdsMsg : String := "Either --user-id or --account-id (or both) must be provided"

/-- `journy event track <eventName>` (`src/index.js` lines 332-366):
requireAuth, require at least one of userId/accountId, parse
`--metadata`, then `trackEvent`. -/
def eventTrackAction (cfg : Config) (net : Net) (parse : JsonParse)
    (eventName : String) (userId accountId : Option String)
    (metadataStr : Option String) : ActionResult :=
  if !isConfigured cfg then
    { outcome := .fail authMissingMsg, netCalls := 0, mediatorInvoked := false }
  else if !optTruthy userId && !optTruthy accountId then
    { outcome := .fail noIdsMsg, netCalls := 0, mediatorInvoked := false }
  else
    match parseProperties parse metadataStr with
    | .error e => { outcome := .fail e, netCalls := 0, mediatorInvoked := false }
    | .ok metadata => finish (trackEvent cfg net eventName userId accountId metadata)

/-- `journy event list` (`src/index.js` lines 368-403). -/
def eventListAction (cfg : Config) (net : Net) : ActionResult :=
  if !isConfigured cfg then
    { outcome := .fail authMissingMsg, netCalls := 0, mediatorInvoked := false }
  else finish (getEvents cfg net)

/-- `journy properties users` (`src/index.js` lines 411-446). -/
def propertiesUsersAction (cfg : Config) (net : Net) : ActionResult :=
  if !isConfigured cfg then
    { outcome := .fail authMissingMsg, netCalls := 0, mediatorInvoked := false }
  else finish (getUserProperties cfg net)

/-- `journy properties accounts` (`src/index.js` lines 448-483). -/
def propertiesAccountsAction (cfg : Config) (net : Net) : ActionResult :=
  if !isConfigured cfg then
    { outcome := .fail authMissingMsg, netCalls := 0, mediatorInvoked := false }
  else finish (getAccountProperties cfg net)

/-- `journy segments users` (`src/index.js` lines 491-526). -/
def segmentsUsersAction (cfg : Config) (net : Net) : ActionResult :=
  if !isConfigured cfg then
    { outcome := .fail authMissingMsg, netCalls := 0, mediatorInvoked := false }
  else finish (getUserSegments cfg net)

/-- `journy segments accounts` (`src/index.js` lines 528-563). -/
def segmentsAccountsAction (cfg : Config) (net : Net) : ActionResult :=
  if !isConfigured cfg then
    { outcome := .fail authMissingMsg, netCalls := 0, mediatorInvoked := false }
  else finish (getAccountSegments cfg net)

/-- `journy link <userId> <accountId>` (`src/index.js` lines 569-592). -/
def linkAction (cfg : Config) (net : Net) (userId accountId : String) :
    ActionResult :=
  if !isConfigured cfg then
    { outcome := .fail authMissingMsg, netCalls := 0, mediatorInvoked := false }
  else finish (linkUserToAccount cfg net userId accountId)

/-- `journy validate` (`src/index.js` lines 598-620). -/
def validateAction (cfg : Config) (net : Net) : ActionResult :=
  if !isConfigured cfg then
    { outcome := .fail authMissingMsg, netCalls := 0, mediatorInvoked := false }
  else finish (validateApiKey cfg net)

/-- `journy snippet` (`src/index.js` lines 626-648). -/
def snippetAction (cfg : Config) (net : Net) : ActionResult :=
  if !isConfigured cfg then
    { outcome := .fail authMissingMsg, netCalls := 0, mediatorInvoked := false }
  else finish (getTrackingSnippet cfg net)

/-- The source condition `error.response?.data?.message` as a Boolean:
the response body is an object carrying a truthy `message` field. -/
def hasTruthyMessage (payload : Json) : Bool :=
  match jsGet payload "message" with
  | some m => truthy m
  | none => false

/-- Look up a key path inside a mediator call's body (`none` when the
call has no body or some key on the path is absent). -/
def bodyKeyAtPath (c : MediatorCall) (path : List String) : Option Json :=
  match c.data with
  | none => none
  | some j => keyAtPath j path

/-- A configuration holding an API key, for concrete evaluations. -/
def cfgW : Config := [("apiKey", "test-key")]

/-- A remote endpoint that answers every request with `200 {}`. -/
def netOkW : Net := fun _ _ _ => .success (Json.obj [])

/-- A remote endpoint that answers every request with HTTP 401 and a
body carrying a `message` field distinct from "unauthorized". -/
def net401W : Net := fun _ _ _ =>
  .httpError 401 (Json.obj [("message", Json.str "Something went wrong")])
    "Request failed with status code 401"

/-- A parser rejecting every string; it agrees with `JSON.parse` on the
empty string (which `JSON.parse` rejects). -/
def parseNoneW : JsonParse := fun _ => none

/-! Helper lemmas shared by the claim theorems. -/

theorem isConfigured_of_absent {cfg : Config}
    (h : getConfig cfg "apiKey" = none) : isConfigured cfg = false := by
  simp [isConfigured, h]

theorem isConfigured_of_key {cfg : Config} {k : String}
    (h1 : getConfig cfg "apiKey" = some k) (h2 : k ≠ "") :
    isConfigured cfg = true := by
  simp [isConfigured, h1, h2]

theorem getHeaders_of_absent {cfg : Config}
    (h : getConfig cfg "apiKey" = none) :
    getHeaders cfg = .error apiKeyMissingMsg := by
  simp [getHeaders, h]

theorem getHeaders_of_key {cfg : Config} {k : String}
    (h1 : getConfig cfg "apiKey" = some k) (h2 : k ≠ "") :
    getHeaders cfg = .ok [("X-Api-Key", k), ("Content-Type", "application/json")] := by
  simp [getHeaders, h1, h2]

theorem runOp_of_absent {cfg : Config} (net : Net)
    (h : getConfig cfg "apiKey" = none) (c : MediatorCall) :
    runOp cfg net c = (.error ("Request failed: " ++ apiKeyMissingMsg), 0) := by
  unfold runOp request
  rw [getHeaders_of_absent h]

theorem request_calls_one {cfg : Config} {k : String} (net : Net)
    (h1 : getConfig cfg "apiKey" = some k) (h2 : k ≠ "")
    (method endpoint : String) (data : Option Json) :
    (request cfg net method endpoint data).2 = 1 := by
  unfold request
  rw [getHeaders_of_key h1 h2]
  cases net method endpoint data <;> rfl

theorem finish_invoked (r : Except String Json × Nat) :
    (finish r).mediatorInvoked = true := by
  obtain ⟨res, n⟩ := r
  cases res <;> rfl

theorem finish_calls (r : Except String Json × Nat) :
    (finish r).netCalls = r.2 := by
  obtain ⟨res, n⟩ := r
  cases res <;> rfl

/-! The claim theorems. -/

/-- C4: `trackEvent("signed_in", userId = "u1")` with no accountId and no
metadata (its default `{}`) constructs exactly the body
`{"name": "signed_in", "userId": "u1"}` — no accountId key, no metadata
key, nothing else. -/
theorem trackEvent_signed_in_exact_body :
    (trackEventCall "signed_in" (some "u1") none (Json.obj [])).data
      = some (Json.obj [("name", Json.str "signed_in"),
                        ("userId", Json.str "u1")]) := rfl

/-- C5: `upsertUser("u1", "a@b.com", {"plan":"Pro"})` constructs exactly
the body `{"identification": {"userId": "u1", "email": "a@b.com"},
"properties": {"plan": "Pro"}}`. -/
theorem upsertUser_example_exact_body :
    (upsertUserCall "u1" (some "a@b.com") (Json.obj [("plan", Json.str "Pro")])).data
      = some (Json.obj
          [("identification", Json.obj [("userId", Json.str "u1"),
                                        ("email", Json.str "a@b.com")]),
           ("properties", Json.obj [("plan", Json.str "Pro")])]) := rfl

/-- C8: every operation draws its HTTP method and path from the fixed
static table: the seven read operations use GET, the upserts, trackEvent,
linkUserToAccount and the add/remove-users operations use POST, and the
two deletes use DELETE, each with its fixed endpoint path. -/
theorem operation_method_path_table :
    (∀ u e p, (upsertUserCall u e p).method = "POST"
      ∧ (upsertUserCall u e p).endpoint = "/users/upsert")
    ∧ (∀ u e, (deleteUserCall u e).method = "DELETE"
      ∧ (deleteUserCall u e).endpoint = "/users")
    ∧ (∀ a d p, (upsertAccountCall a d p).method = "POST"
      ∧ (upsertAccountCall a d p).endpoint = "/accounts/upsert")
    ∧ (∀ a d, (deleteAccountCall a d).method = "DELETE"
      ∧ (deleteAccountCall a d).endpoint = "/accounts")
    ∧ (∀ a us, (addUsersToAccountCall a us).method = "POST"
      ∧ (addUsersToAccountCall a us).endpoint = "/accounts/users/add")
    ∧ (∀ a us, (removeUsersFromAccountCall a us).method = "POST"
      ∧ (removeUsersFromAccountCall a us).endpoint = "/accounts/users/remove")
    ∧ (∀ n u a m, (trackEventCall n u a m).method = "POST"
      ∧ (trackEventCall n u a m).endpoint = "/track")
    ∧ (∀ u a, (linkUserToAccountCall u a).method = "POST"
      ∧ (linkUserToAccountCall u a).endpoint = "/link")
    ∧ getEventsCall.method = "GET" ∧ getEventsCall.endpoint = "/events"
    ∧ getUserPropertiesCall.method = "GET"
    ∧ getUserPropertiesCall.endpoint = "/properties/users"
    ∧ getAccountPropertiesCall.method = "GET"
    ∧ getAccountPropertiesCall.endpoint = "/properties/accounts"
    ∧ getUserSegmentsCall.method = "GET"
    ∧ getUserSegmentsCall.endpoint = "/segments/users"
    ∧ getAccountSegmentsCall.method = "GET"
    ∧ getAccountSegmentsCall.endpoint = "/segments/accounts"
    ∧ validateApiKeyCall.method = "GET"
    ∧ validateApiKeyCall.endpoint = "/validate"
    ∧ getTrackingSnippetCall.method = "GET"
    ∧ getTrackingSnippetCall.endpoint = "/tracking/snippet" := by
  refine ⟨fun u e p => ⟨rfl, rfl⟩, fun u e => ⟨rfl, rfl⟩,
    fun a d p => ⟨rfl, rfl⟩, fun a d => ⟨rfl, rfl⟩,
    fun a us => ⟨rfl, rfl⟩, fun a us => ⟨rfl, rfl⟩,
    fun n u a m => ⟨rfl, rfl⟩, fun u a => ⟨rfl, rfl⟩,
    rfl, rfl, rfl, rfl, rfl, rfl, rfl, rfl, rfl, rfl, rfl, rfl, rfl, rfl⟩

/-- C10: for every accountId and userIds list, `addUsersToAccount` and
`removeUsersFromAccount` construct identical POST bodies
`{identification: {accountId}, users: [...]}` — the users array maps
each id, in order, to `{identification: {userId}}` — and the two
operations differ only in the endpoint path. -/
theorem addRemoveUsers_same_body_different_path (accountId : String)
    (userIds : List String) :
    (addUsersToAccountCall accountId userIds).data
      = (removeUsersFromAccountCall accountId userIds).data
    ∧ (addUsersToAccountCall accountId userIds).method
      = (removeUsersFromAccountCall accountId userIds).method
    ∧ (addUsersToAccountCall accountId userIds).data
      = some (Json.obj
          [("identification", Json.obj [("accountId", Json.str accountId)]),
           ("users", Json.arr (userIds.map (fun u =>
             Json.obj [("identification", Json.obj [("userId", Json.str u)])])))])
    ∧ (userIds.map (fun u =>
         Json.obj [("identification", Json.obj [("userId", Json.str u)])])).length
        = userIds.length
    ∧ (addUsersToAccountCall accountId userIds).endpoint = "/accounts/users/add"
    ∧ (removeUsersFromAccountCall accountId userIds).endpoint = "/accounts/users/remove" := by
  refine ⟨rfl, rfl, rfl, ?_, rfl, rfl⟩
  simp

/-- C2: for every mutating operation (upsertUser, upsertAccount,
deleteUser, deleteAccount, trackEvent) and every combination of supplied
and omitted optional arguments, the constructed body carries no key for
an omitted argument: an omitted email/domain/userId/accountId leaves no
such key inside `identification` (or at top level for trackEvent), and
omitted properties/metadata (their default `{}`) leave no
properties/metadata key — not even empty or null. -/
theorem omitted_optional_arguments_absent :
    (∀ u p, bodyKeyAtPath (upsertUserCall u none p) ["identification", "email"] = none)
    ∧ (∀ u e, bodyKeyAtPath (upsertUserCall u e (Json.obj [])) ["properties"] = none)
    ∧ (∀ a p, bodyKeyAtPath (upsertAccountCall a none p) ["identification", "domain"] = none)
    ∧ (∀ a d, bodyKeyAtPath (upsertAccountCall a d (Json.obj [])) ["properties"] = none)
    ∧ (∀ e, bodyKeyAtPath (deleteUserCall none e) ["identification", "userId"] = none)
    ∧ (∀ u, bodyKeyAtPath (deleteUserCall u none) ["identification", "email"] = none)
    ∧ (∀ d, bodyKeyAtPath (deleteAccountCall none d) ["identification", "accountId"] = none)
    ∧ (∀ a, bodyKeyAtPath (deleteAccountCall a none) ["identification", "domain"] = none)
    ∧ (∀ n a m, bodyKeyAtPath (trackEventCall n none a m) ["userId"] = none)
    ∧ (∀ n u m, bodyKeyAtPath (trackEventCall n u none m) ["accountId"] = none)
    ∧ (∀ n u a, bodyKeyAtPath (trackEventCall n u a (Json.obj [])) ["metadata"] = none) := by
  refine ⟨fun u p => ?_, fun u e => ?_, fun a p => ?_, fun a d => ?_,
    fun e => ?_, fun u => ?_, fun d => ?_, fun a => ?_,
    fun n a m => ?_, fun n u m => ?_, fun n u a => ?_⟩ <;>
  · simp only [bodyKeyAtPath, upsertUserCall, upsertAccountCall,
      deleteUserCall, deleteAccountCall, trackEventCall, addIf]
    repeat' split
    all_goals first | rfl | simp_all [jsKeysLength]

/-- C3: for every operation — each of the fifteen CLI commands, and any
request the mediator could be asked to dispatch — an absent Credential
in the Configuration Store yields the local precondition failure
("API key not configured.") with zero network requests issued and the
mediator never invoked; at the mediator layer the locally thrown
key-missing error likewise aborts `request` before any dispatch. -/
theorem missing_credential_fails_before_dispatch (cfg : Config) (net : Net)
    (parse : JsonParse) (h : getConfig cfg "apiKey" = none)
    (u1 : String) (e1 ps1 : Option String) (u2 : String) (e2 : Option String)
    (a3 : String) (d3 ps3 : Option String) (a4 : String) (d4 : Option String)
    (a5 : String) (ids5 : List String) (a6 : String) (ids6 : List String)
    (n7 : String) (u7 a7 ms7 : Option String) (u13 a13 : String)
    (c : MediatorCall) :
    userUpsertAction cfg net parse u1 e1 ps1
      = ⟨.fail authMissingMsg, 0, false⟩
    ∧ userDeleteAction cfg net u2 e2 = ⟨.fail authMissingMsg, 0, false⟩
    ∧ accountUpsertAction cfg net parse a3 d3 ps3
      = ⟨.fail authMissingMsg, 0, false⟩
    ∧ accountDeleteAction cfg net a4 d4 = ⟨.fail authMissingMsg, 0, false⟩
    ∧ addUsersAction cfg net a5 ids5 = ⟨.fail authMissingMsg, 0, false⟩
    ∧ removeUsersAction cfg net a6 ids6 = ⟨.fail authMissingMsg, 0, false⟩
    ∧ eventTrackAction cfg net parse n7 u7 a7 ms7
      = ⟨.fail authMissingMsg, 0, false⟩
    ∧ eventListAction cfg net = ⟨.fail authMissingMsg, 0, false⟩
    ∧ propertiesUsersAction cfg net = ⟨.fail authMissingMsg, 0, false⟩
    ∧ propertiesAccountsAction cfg net = ⟨.fail authMissingMsg, 0, false⟩
    ∧ segmentsUsersAction cfg net = ⟨.fail authMissingMsg, 0, false⟩
    ∧ segmentsAccountsAction cfg net = ⟨.fail authMissingMsg, 0, false⟩
    ∧ linkAction cfg net u13 a13 = ⟨.fail authMissingMsg, 0, false⟩
    ∧ validateAction cfg net = ⟨.fail authMissingMsg, 0, false⟩
    ∧ snippetAction cfg net = ⟨.fail authMissingMsg, 0, false⟩
    ∧ runOp cfg net c = (.error ("Request failed: " ++ apiKeyMissingMsg), 0) := by
  have hc : isConfigured cfg = false := isConfigured_of_absent h
  refine ⟨?_, ?_, ?_, ?_, ?_, ?_, ?_, ?_, ?_, ?_, ?_, ?_, ?_, ?_, ?_,
    runOp_of_absent net h c⟩ <;>
  · simp only [userUpsertAction, userDeleteAction, accountUpsertAction,
      accountDeleteAction, addUsersAction, removeUsersAction,
      eventTrackAction, eventListAction, propertiesUsersAction,
      propertiesAccountsAction, segmentsUsersAction, segmentsAccountsAction,
      linkAction, validateAction, snippetAction, hc]
    rfl

/-- Witness for C3 at the empty configuration: every command fails with
the precondition message and zero requests, and the mediator aborts
any call locally. -/
theorem missing_credential_fails_before_dispatch_witness :
    userUpsertAction [] netOkW parseNoneW "u1" none none
      = ⟨.fail authMissingMsg, 0, false⟩
    ∧ userDeleteAction [] netOkW "u1" none = ⟨.fail authMissingMsg, 0, false⟩
    ∧ accountUpsertAction [] netOkW parseNoneW "a1" none none
      = ⟨.fail authMissingMsg, 0, false⟩
    ∧ accountDeleteAction [] netOkW "a1" none = ⟨.fail authMissingMsg, 0, false⟩
    ∧ addUsersAction [] netOkW "a1" ["u1"] = ⟨.fail authMissingMsg, 0, false⟩
    ∧ removeUsersAction [] netOkW "a1" ["u1"] = ⟨.fail authMissingMsg, 0, false⟩
    ∧ eventTrackAction [] netOkW parseNoneW "signed_in" (some "u1") none none
      = ⟨.fail authMissingMsg, 0, false⟩
    ∧ eventListAction [] netOkW = ⟨.fail authMissingMsg, 0, false⟩
    ∧ propertiesUsersAction [] netOkW = ⟨.fail authMissingMsg, 0, false⟩
    ∧ propertiesAccountsAction [] netOkW = ⟨.fail authMissingMsg, 0, false⟩
    ∧ segmentsUsersAction [] netOkW = ⟨.fail authMissingMsg, 0, false⟩
    ∧ segmentsAccountsAction [] netOkW = ⟨.fail authMissingMsg, 0, false⟩
    ∧ linkAction [] netOkW "u1" "a1" = ⟨.fail authMissingMsg, 0, false⟩
    ∧ validateAction [] netOkW = ⟨.fail authMissingMsg, 0, false⟩
    ∧ snippetAction [] netOkW = ⟨.fail authMissingMsg, 0, false⟩
    ∧ runOp [] netOkW validateApiKeyCall
      = (.error ("Request failed: " ++ apiKeyMissingMsg), 0) :=
  missing_credential_fails_before_dispatch [] netOkW parseNoneW rfl
    "u1" none none "u1" none "a1" none none "a1" none "a1" ["u1"] "a1" ["u1"]
    "signed_in" (some "u1") none none "u1" "a1" validateApiKeyCall

/-- C6: with a configured key, a userIds list of exactly 100 elements
passes the caller's bound check and is dispatched by the mediator (one
network request); a list of more than 100 elements is rejected locally
by the Presenter before the mediator is reached; and the mediator
itself (`addUsersToAccount`/`removeUsersFromAccount`) re-checks no
bound — it dispatches one request for a list of any length. -/
theorem userIds_bound_checked_by_caller_only (cfg : Config) (net : Net)
    (k : String) (h1 : getConfig cfg "apiKey" = some k) (h2 : k ≠ "")
    (accountId : String) (ids100 ids101 idsAny : List String)
    (h100 : ids100.length = 100) (h101 : ids101.length > 100) :
    (addUsersAction cfg net accountId ids100).mediatorInvoked = true
    ∧ (addUsersAction cfg net accountId ids100).netCalls = 1
    ∧ addUsersAction cfg net accountId ids101
      = ⟨.fail tooManyAddMsg, 0, false⟩
    ∧ (removeUsersAction cfg net accountId ids100).mediatorInvoked = true
    ∧ (removeUsersAction cfg net accountId ids100).netCalls = 1
    ∧ removeUsersAction cfg net accountId ids101
      = ⟨.fail tooManyRemoveMsg, 0, false⟩
    ∧ (addUsersToAccount cfg net accountId idsAny).2 = 1
    ∧ (removeUsersFromAccount cfg net accountId idsAny).2 = 1 := by
  have hc : isConfigured cfg = true := isConfigured_of_key h1 h2
  have hn100 : ¬ ids100.length > 100 := by omega
  refine ⟨?_, ?_, ?_, ?_, ?_, ?_,
    request_calls_one net h1 h2 _ _ _, request_calls_one net h1 h2 _ _ _⟩
  · simp [addUsersAction, hc, hn100, finish_invoked]
  · simp only [addUsersAction, hc, Bool.not_true, Bool.false_eq_true,
      if_false, if_neg hn100, finish_calls]
    exact request_calls_one net h1 h2 _ _ _
  · simp [addUsersAction, hc, h101]
  · simp [removeUsersAction, hc, hn100, finish_invoked]
  · simp only [removeUsersAction, hc, Bool.not_true, Bool.false_eq_true,
      if_false, if_neg hn100, finish_calls]
    exact request_calls_one net h1 h2 _ _ _
  · simp [removeUsersAction, hc, h101]

/-- Witness for C6: with the key configured, 100 replicated ids are
dispatched (one request), 101 are rejected locally, and the mediator
dispatches even a 101-element list when called directly. -/
theorem userIds_bound_checked_by_caller_only_witness :
    (addUsersAction cfgW netOkW "a1" (List.replicate 100 "u")).mediatorInvoked = true
    ∧ (addUsersAction cfgW netOkW "a1" (List.replicate 100 "u")).netCalls = 1
    ∧ addUsersAction cfgW netOkW "a1" (List.replicate 101 "u")
      = ⟨.fail tooManyAddMsg, 0, false⟩
    ∧ (removeUsersAction cfgW netOkW "a1" (List.replicate 100 "u")).mediatorInvoked = true
    ∧ (removeUsersAction cfgW netOkW "a1" (List.replicate 100 "u")).netCalls = 1
    ∧ removeUsersAction cfgW netOkW "a1" (List.replicate 101 "u")
      = ⟨.fail tooManyRemoveMsg, 0, false⟩
    ∧ (addUsersToAccount cfgW netOkW "a1" (List.replicate 101 "u")).2 = 1
    ∧ (removeUsersFromAccount cfgW netOkW "a1" (List.replicate 101 "u")).2 = 1 :=
  userIds_bound_checked_by_caller_only cfgW netOkW "test-key" rfl (by decide)
    "a1" (List.replicate 100 "u") (List.replicate 101 "u")
    (List.replicate 101 "u") (by simp) (by simp)

/-- C7 (amended): for every NON-EMPTY string passed to `--properties`
or `--metadata` that is not valid JSON, parsing yields the precondition
failure whose message spells out the expected JSON shape
(`Properties must be valid JSON. Example: ...`), zero network requests
are issued, and the mediator operation is never invoked. (The empty
string — also invalid JSON — is instead treated as falsy by
`parseProperties` and silently becomes `{}`; see the counterexample.) -/
theorem malformed_json_rejected_locally (cfg : Config) (net : Net)
    (parse : JsonParse) (k s : String)
    (h1 : getConfig cfg "apiKey" = some k) (h2 : k ≠ "")
    (hs : s ≠ "") (hbad : parse s = none)
    (u : String) (e : Option String) (a : String) (d : Option String)
    (n uid : String) (huid : uid ≠ "") (acc : Option String) :
    parseProperties parse (some s) = .error badJsonMsg
    ∧ userUpsertAction cfg net parse u e (some s)
      = ⟨.fail badJsonMsg, 0, false⟩
    ∧ accountUpsertAction cfg net parse a d (some s)
      = ⟨.fail badJsonMsg, 0, false⟩
    ∧ eventTrackAction cfg net parse n (some uid) acc (some s)
      = ⟨.fail badJsonMsg, 0, false⟩ := by
  have hc : isConfigured cfg = true := isConfigured_of_key h1 h2
  have hp : parseProperties parse (some s) = .error badJsonMsg := by
    simp [parseProperties, hs, hbad]
  refine ⟨hp, ?_, ?_, ?_⟩
  · simp [userUpsertAction, hc, hp]
  · simp [accountUpsertAction, hc, hp]
  · simp [eventTrackAction, hc, optTruthy, huid, hp]

/-- Witness for C7 (amended): the non-empty, unparseable string `"nope"`
is rejected locally with the instructive message by all three
JSON-accepting commands, with zero requests and no mediator call. -/
theorem malformed_json_rejected_locally_witness :
    parseProperties parseNoneW (some "nope") = .error badJsonMsg
    ∧ userUpsertAction cfgW netOkW parseNoneW "u1" none (some "nope")
      = ⟨.fail badJsonMsg, 0, false⟩
    ∧ accountUpsertAction cfgW netOkW parseNoneW "a1" none (some "nope")
      = ⟨.fail badJsonMsg, 0, false⟩
    ∧ eventTrackAction cfgW netOkW parseNoneW "signed_in" (some "u1") none (some "nope")
      = ⟨.fail badJsonMsg, 0, false⟩ :=
  malformed_json_rejected_locally cfgW netOkW parseNoneW "test-key" "nope"
    rfl (by decide) (by decide) rfl "u1" none "a1" none "signed_in" "u1"
    (by decide) none

/-- C7 counterexample: the empty string is not valid JSON
(`JSON.parse("")` throws; the modelled parser rejects it), yet passing
`--properties ""` yields no precondition failure: `parseProperties`
returns `{}` via its falsy-argument shortcut, the mediator IS invoked,
and one network request is issued. -/
theorem malformed_json_empty_string_counterexample :
    parseNoneW "" = none
    ∧ parseProperties parseNoneW (some "") = .ok (Json.obj [])
    ∧ userUpsertAction cfgW netOkW parseNoneW "u1" none (some "")
      = ⟨.ok (Json.obj []), 1, true⟩ := ⟨rfl, rfl, rfl⟩

/-- C9 (amended): `deleteUser` performs no local identification check:
with neither userId nor email supplied it still dispatches one
DELETE /users request whose body is `{identification: {}}` — the call
is sent to the remote endpoint rather than failing as a precondition.
(The CLI surface makes `userId` a required positional argument, so the
omitted-both case cannot arise from the command line.) -/
theorem deleteUser_no_identification_check (cfg : Config) (net : Net)
    (k : String) (h1 : getConfig cfg "apiKey" = some k) (h2 : k ≠ "") :
    deleteUserCall none none
      = ⟨"DELETE", "/users", some (Json.obj [("identification", Json.obj [])])⟩
    ∧ (deleteUser cfg net none none).2 = 1 :=
  ⟨rfl, request_calls_one net h1 h2 _ _ _⟩

/-- Witness for C9 (amended) at a configured key and an all-2xx remote. -/
theorem deleteUser_no_identification_check_witness :
    deleteUserCall none none
      = ⟨"DELETE", "/users", some (Json.obj [("identification", Json.obj [])])⟩
    ∧ (deleteUser cfgW netOkW none none).2 = 1 :=
  deleteUser_no_identification_check cfgW netOkW "test-key" rfl (by decide)

/-- C9 counterexample: with a configured key and a 2xx remote,
`deleteUser` with neither userId nor email succeeds after dispatching
one network request — it does not fail as a precondition violation
before dispatch. -/
theorem deleteUser_no_identification_counterexample :
    deleteUser cfgW netOkW none none = (.ok (Json.obj []), 1) := rfl

/-- C1 (amended): after a dispatch whose response is a non-2xx HTTP
error, a truthy `message` field in the response body is classified
`ApiError` for EVERY status, including 401 and 429; status 401 is
classified `UnauthorizedError` and status 429 `RateLimitedError` only
when the body carries no truthy message field. -/
theorem error_classification_amended (cfg : Config) (net : Net) (k : String)
    (h1 : getConfig cfg "apiKey" = some k) (h2 : k ≠ "") (c : MediatorCall)
    (status : Nat) (payload : Json) (errmsg : String)
    (hnet : net c.method c.endpoint c.data = .httpError status payload errmsg) :
    (hasTruthyMessage payload = false → status = 401 →
      (runOp cfg net c).1 = .error "Unauthorized: Invalid API key")
    ∧ (hasTruthyMessage payload = false → status = 429 →
      (runOp cfg net c).1 = .error "Rate limit exceeded (1800 requests/min)")
    ∧ (∀ m, jsGet payload "message" = some m → truthy m = true →
      (runOp cfg net c).1 = .error ("API Error: " ++ jsToString m)) := by
  have hrun : (runOp cfg net c).1
      = .error (classifyHttpError status payload errmsg) := by
    unfold runOp request
    rw [getHeaders_of_key h1 h2, hnet]
  refine ⟨?_, ?_, ?_⟩
  · intro hmsg h401
    subst h401
    rw [hrun]
    unfold classifyHttpError
    cases hm : jsGet payload "message" with
    | none => simp
    | some m =>
      have ht : truthy m = false := by
        unfold hasTruthyMessage at hmsg
        rw [hm] at hmsg
        exact hmsg
      simp [ht]
  · intro hmsg h429
    subst h429
    rw [hrun]
    unfold classifyHttpError
    cases hm : jsGet payload "message" with
    | none => simp
    | some m =>
      have ht : truthy m = false := by
        unfold hasTruthyMessage at hmsg
        rw [hm] at hmsg
        exact hmsg
      simp [ht]
  · intro m hm ht
    rw [hrun]
    unfold classifyHttpError
    rw [hm]
    simp [ht]

/-- Witness for C1 (amended): a 401 response whose body carries the
truthy message "Something went wrong" is classified `ApiError`. -/
theorem error_classification_amended_witness :
    (hasTruthyMessage (Json.obj [("message", Json.str "Something went wrong")]) = false →
      (401 : Nat) = 401 →
      (runOp cfgW net401W validateApiKeyCall).1
        = .error "Unauthorized: Invalid API key")
    ∧ (hasTruthyMessage (Json.obj [("message", Json.str "Something went wrong")]) = false →
      (401 : Nat) = 429 →
      (runOp cfgW net401W validateApiKeyCall).1
        = .error "Rate limit exceeded (1800 requests/min)")
    ∧ (∀ m, jsGet (Json.obj [("message", Json.str "Something went wrong")]) "message" = some m →
      truthy m = true →
      (runOp cfgW net401W validateApiKeyCall).1
        = .error ("API Error: " ++ jsToString m)) :=
  error_classification_amended cfgW net401W "test-key" rfl (by decide)
    validateApiKeyCall 401
    (Json.obj [("message", Json.str "Something went wrong")])
    "Request failed with status code 401" rfl

/-- C1 counterexample: a response carrying HTTP 401 whose body also
carries a message field distinct from "unauthorized" is classified
`ApiError` wrapping that message — not `UnauthorizedError`, contrary to
the claim's stated precedence. -/
theorem http401_with_message_counterexample :
    (validateApiKey cfgW net401W).1 = .error "API Error: Something went wrong"
    ∧ (validateApiKey cfgW net401W).1 ≠ .error "Unauthorized: Invalid API key" := by
  refine ⟨rfl, ?_⟩
  intro hcontra
  rw [show (validateApiKey cfgW net401W).1
      = Except.error "API Error: Something went wrong" from rfl] at hcontra
  injection hcontra with hmsg
  exact absurd hmsg (by decide)

end Journy
